import Mathlib

/-!
Verification of the LendingPlatform contract (LendAI protocol).

The contract state and operations below are a shallow embedding of the
Solidity contract `LendingPlatform`: `setRiskScore`, `addCollateralToken`
and `applyForLoan`, together with a small-step trace semantics (`step`,
`run`) in which a failed operation reverts (leaves the state unchanged),
matching the all-or-nothing transaction model of the ledger runtime.

Addresses are modelled as naturals; address 0 is the native-currency
sentinel used by the contract (`_collateralToken == address(0)`).
The Solidity mapping `borrowerRiskScore` is modelled as an association
list so that "never written" is representable; the public getter
`getScore` reads it with default 0, exactly as a Solidity mapping does.
The outcome of the external ERC20 `transferFrom` call is an input of
`applyForLoan` (`transferOk`), since the token ledger is an external
collaborator.
-/

abbrev Address := Nat

/-- A single loan record, mirroring the `Loan` struct of the contract. -/
structure Loan where
  loanId : Nat
  borrower : Address
  principal : Nat
  interestRate : Nat
  tenure : Nat
  collateralAmount : Nat
  collateralToken : Address
  isRepaid : Bool
deriving Repr, DecidableEq

/-- Events emitted by the contract. -/
inductive Event where
  | ScoreUpdated (borrower : Address) (score : Nat)
  | CollateralAdded (token : Address)
  | LoanDisbursed (loanId : Nat) (borrower : Address) (principal : Nat)
      (rate : Nat) (collateralToken : Address) (collateralAmount : Nat)
deriving Repr, DecidableEq

/-- Failure conditions of the contract, named after the spec taxonomy;
each corresponds to one `require` in the source. -/
inductive Err where
  | Unauthorized
  | InvalidScore
  | NotScored
  | CollateralMismatch
  | UnsupportedCollateral
  | UnexpectedNativeValue
  | TransferFailed
deriving Repr, DecidableEq

/-- Contract storage: the loans ledger, the trusted oracle set at
construction, the risk-score mapping, the collateral whitelist and the
`nextLoanId` counter. -/
structure ContractState where
  loans : List Loan
  trustedOracle : Address
  borrowerRiskScore : List (Address × Nat)
  supportedCollateral : List Address
  nextLoanId : Nat
deriving Repr, DecidableEq

/-- The constructor: sets the trusted oracle; `nextLoanId` starts at 1. -/
def construct (oracle : Address) : ContractState :=
  { loans := []
    trustedOracle := oracle
    borrowerRiskScore := []
    supportedCollateral := []
    nextLoanId := 1 }

/-- Overwrite the stored score for a borrower (latest-write-wins). -/
def writeScore (m : List (Address × Nat)) (k : Address) (v : Nat) :
    List (Address × Nat) :=
  (k, v) :: m.filter (fun p => p.1 != k)

/-- Reading the public mapping `borrowerRiskScore`: a Solidity mapping
returns 0 for a key never written. -/
def getScore (s : ContractState) (a : Address) : Nat :=
  (s.borrowerRiskScore.lookup a).getD 0

/-- Whitelist membership test `supportedCollateral[_token]`. -/
def isSupported (s : ContractState) (t : Address) : Bool :=
  s.supportedCollateral.contains t

/-- Idempotent insertion into the whitelist set. -/
def addToken (l : List Address) (t : Address) : List Address :=
  if l.contains t then l else t :: l

/-- `setRiskScore(_borrower, _score)`: only the oracle may call; the
score must be at most 100; the stored value is overwritten and
`ScoreUpdated` is emitted. -/
def setRiskScore (s : ContractState) (caller borrower : Address)
    (score : Nat) : Except Err (ContractState × List Event) :=
  if caller ≠ s.trustedOracle then .error .Unauthorized
  else if score > 100 then .error .InvalidScore
  else .ok ({ s with borrowerRiskScore := writeScore s.borrowerRiskScore borrower score },
            [.ScoreUpdated borrower score])

/-- `addCollateralToken(_token)`: only the oracle may call; whitelists
the token and emits `CollateralAdded`. -/
def addCollateralToken (s : ContractState) (caller token : Address) :
    Except Err (ContractState × List Event) :=
  if caller ≠ s.trustedOracle then .error .Unauthorized
  else .ok ({ s with supportedCollateral := addToken s.supportedCollateral token },
            [.CollateralAdded token])

/-- The tail of `applyForLoan` after all guards have passed: rate
computation `100 / riskScore`, ledger append, counter increment and
`LoanDisbursed` emission. -/
def recordLoan (s : ContractState) (caller : Address)
    (principal tenure collateralAmount : Nat) (collateralToken : Address)
    (riskScore : Nat) : Except Err (ContractState × List Event) :=
  let finalRate := 100 / riskScore
  let loan : Loan :=
    { loanId := s.nextLoanId
      borrower := caller
      principal := principal
      interestRate := finalRate
      tenure := tenure
      collateralAmount := collateralAmount
      collateralToken := collateralToken
      isRepaid := false }
  .ok ({ s with loans := s.loans ++ [loan], nextLoanId := s.nextLoanId + 1 },
       [.LoanDisbursed s.nextLoanId caller principal finalRate collateralToken collateralAmount])

/-- `applyForLoan(_principal, _tenure, _collateralAmount, _collateralToken)`:
requires a positive stored risk score, routes collateral (native when the
token address is 0, else whitelisted ERC20 with zero native value and a
successful pull-transfer), then records the loan via `recordLoan`.
`msgValue` is the native value sent with the call and `transferOk` the
outcome of the external ERC20 `transferFrom`. -/
def applyForLoan (s : ContractState) (caller : Address)
    (principal tenure collateralAmount : Nat) (collateralToken : Address)
    (msgValue : Nat) (transferOk : Bool) :
    Except Err (ContractState × List Event) :=
  let riskScore := getScore s caller
  if riskScore = 0 then .error .NotScored
  else if collateralToken = 0 then
    if msgValue ≠ collateralAmount then .error .CollateralMismatch
    else recordLoan s caller principal tenure collateralAmount collateralToken riskScore
  else if ¬ isSupported s collateralToken then .error .UnsupportedCollateral
  else if msgValue ≠ 0 then .error .UnexpectedNativeValue
  else if ¬ transferOk then .error .TransferFailed
  else recordLoan s caller principal tenure collateralAmount collateralToken riskScore

/-- One externally callable transaction of the contract. -/
inductive Op where
  | setScore (caller borrower : Address) (score : Nat)
  | addCollateral (caller token : Address)
  | applyLoan (caller : Address) (principal tenure collateralAmount : Nat)
      (collateralToken : Address) (msgValue : Nat) (transferOk : Bool)
deriving Repr, DecidableEq

/-- Execute one transaction, returning the new state and the events, or
the failure. -/
def exec (s : ContractState) : Op → Except Err (ContractState × List Event)
  | .setScore c b v => setRiskScore s c b v
  | .addCollateral c t => addCollateralToken s c t
  | .applyLoan c p t ca ct mv tok => applyForLoan s c p t ca ct mv tok

/-- A failed transaction reverts: the state is unchanged. -/
def step (s : ContractState) (op : Op) : ContractState :=
  match exec s op with
  | .ok (s2, _) => s2
  | .error _ => s

/-- Run a sequence of transactions from a state. -/
def run (s : ContractState) (ops : List Op) : ContractState :=
  ops.foldl step s

/-! ## Basic lemmas about the operations -/

/-- A reverted (failed) transaction leaves the state unchanged. -/
theorem step_of_error {s : ContractState} {op : Op} {e : Err}
    (h : exec s op = .error e) : step s op = s := by
  simp [step, h]

/-- A successful transaction steps to the returned state. -/
theorem step_of_ok {s s2 : ContractState} {op : Op} {evs : List Event}
    (h : exec s op = .ok (s2, evs)) : step s op = s2 := by
  simp [step, h]

/-- Looking up the borrower just written returns the new score. -/
theorem lookup_writeScore_self (m : List (Address × Nat)) (b v : Nat) :
    (writeScore m b v).lookup b = some v := by
  simp [writeScore, List.lookup]

/-- Looking up a different borrower is unaffected by a write. -/
theorem lookup_writeScore_ne (m : List (Address × Nat)) (a b v : Nat)
    (h : a ≠ b) : (writeScore m b v).lookup a = m.lookup a := by
  have hab : (a == b) = false := by simp [h]
  have hfilter : ∀ m2 : List (Address × Nat),
      (m2.filter (fun p => p.1 != b)).lookup a = m2.lookup a := by
    intro m2
    induction m2 with
    | nil => rfl
    | cons hd tl ih =>
      by_cases hk : hd.1 = b
      · simp [List.filter, hk, List.lookup, hab, ih]
      · have hb : (hd.1 == b) = false := by simp [hk]
        cases hah : a == hd.1 <;>
          simp [List.filter, bne, hb, List.lookup, hah] <;>
          simpa [bne] using ih
  simp [writeScore, List.lookup, hab, hfilter]

/-- Writing the same score twice in a row produces the same registry. -/
theorem writeScore_idem (m : List (Address × Nat)) (b v : Nat) :
    writeScore (writeScore m b v) b v = writeScore m b v := by
  simp [writeScore, List.filter_filter]

/-- Membership in the whitelist survives any insertion. -/
theorem contains_addToken (l : List Address) (t u : Address)
    (h : l.contains t = true) : (addToken l u).contains t = true := by
  unfold addToken
  split
  · exact h
  · simp [List.contains_cons]
    simp at h
    tauto

/-- Unfolding a successful `recordLoan`. -/
theorem recordLoan_ok {s s2 : ContractState} {evs : List Event}
    {c p t ca ct rs : Nat}
    (h : recordLoan s c p t ca ct rs = .ok (s2, evs)) :
    s2 = { s with
            loans := s.loans ++ [⟨s.nextLoanId, c, p, 100 / rs, t, ca, ct, false⟩]
            nextLoanId := s.nextLoanId + 1 } ∧
    evs = [.LoanDisbursed s.nextLoanId c p (100 / rs) ct ca] := by
  simp only [recordLoan, Except.ok.injEq, Prod.mk.injEq] at h
  exact ⟨h.1.symm, h.2.symm⟩

/-- Shape of any successful `applyForLoan`: the stored score is positive,
exactly one loan is appended — priced at `100 / score`, carrying the
current `nextLoanId` — the counter advances by one, and no other storage
is touched. -/
theorem applyForLoan_ok_shape {s s2 : ContractState} {evs : List Event}
    {c p t ca ct mv : Nat} {tok : Bool}
    (h : applyForLoan s c p t ca ct mv tok = .ok (s2, evs)) :
    1 ≤ getScore s c ∧
    s2.loans = s.loans ++
      [⟨s.nextLoanId, c, p, 100 / getScore s c, t, ca, ct, false⟩] ∧
    s2.nextLoanId = s.nextLoanId + 1 ∧
    s2.trustedOracle = s.trustedOracle ∧
    s2.borrowerRiskScore = s.borrowerRiskScore ∧
    s2.supportedCollateral = s.supportedCollateral := by
  simp only [applyForLoan] at h
  split at h
  · simp at h
  · next h0 =>
    have h1 : 1 ≤ getScore s c := by omega
    split at h
    · split at h
      · simp at h
      · obtain ⟨hs2, _⟩ := recordLoan_ok h
        subst hs2
        exact ⟨h1, by simp, by simp, rfl, rfl, rfl⟩
    · split at h
      · simp at h
      · split at h
        · simp at h
        · split at h
          · simp at h
          · obtain ⟨hs2, _⟩ := recordLoan_ok h
            subst hs2
            exact ⟨h1, by simp, by simp, rfl, rfl, rfl⟩

/-- A `setScore` transaction never touches the loans ledger, the counter
or the whitelist. -/
theorem step_setScore_frame (s : ContractState) (c b v : Nat) :
    (step s (.setScore c b v)).loans = s.loans ∧
    (step s (.setScore c b v)).nextLoanId = s.nextLoanId ∧
    (step s (.setScore c b v)).supportedCollateral = s.supportedCollateral := by
  by_cases h1 : c ≠ s.trustedOracle
  · simp [step, exec, setRiskScore, h1]
  · by_cases h2 : v > 100 <;> simp [step, exec, setRiskScore, h1, h2]

/-- An `addCollateral` transaction never touches the loans ledger, the
counter or the score registry. -/
theorem step_addCollateral_frame (s : ContractState) (c t : Nat) :
    (step s (.addCollateral c t)).loans = s.loans ∧
    (step s (.addCollateral c t)).nextLoanId = s.nextLoanId ∧
    (step s (.addCollateral c t)).borrowerRiskScore = s.borrowerRiskScore := by
  by_cases h1 : c ≠ s.trustedOracle <;> simp [step, exec, addCollateralToken, h1]

/-- An `applyLoan` transaction either reverts or commits the state
returned by `applyForLoan`. -/
theorem step_applyLoan_cases (s : ContractState) (c p t ca ct mv : Nat)
    (tok : Bool) :
    step s (.applyLoan c p t ca ct mv tok) = s ∨
    ∃ s2 evs, applyForLoan s c p t ca ct mv tok = .ok (s2, evs) ∧
      step s (.applyLoan c p t ca ct mv tok) = s2 := by
  cases h : applyForLoan s c p t ca ct mv tok with
  | error e => exact Or.inl (step_of_error (e := e) (by simp [exec, h]))
  | ok pr =>
    exact Or.inr ⟨pr.1, pr.2, by simp [h],
      @step_of_ok s pr.1 (.applyLoan c p t ca ct mv tok) pr.2 (by simp [exec, h])⟩

/-- Ledger consistency: the recorded `loanId`s are exactly 1, 2, …, n in
order, and `nextLoanId` is one past the end. -/
def ledgerConsistent (s : ContractState) : Prop :=
  s.loans.map Loan.loanId = List.range' 1 s.loans.length ∧
  s.nextLoanId = s.loans.length + 1

/-- Every transaction preserves ledger consistency. -/
theorem step_ledgerConsistent {s : ContractState} (op : Op)
    (h : ledgerConsistent s) : ledgerConsistent (step s op) := by
  obtain ⟨hmap, hnext⟩ := h
  cases op with
  | setScore c b v =>
    obtain ⟨hl, hn, _⟩ := step_setScore_frame s c b v
    exact ⟨by rw [hl, hmap], by rw [hn, hl, hnext]⟩
  | addCollateral c t =>
    obtain ⟨hl, hn, _⟩ := step_addCollateral_frame s c t
    exact ⟨by rw [hl, hmap], by rw [hn, hl, hnext]⟩
  | applyLoan c p t ca ct mv tok =>
    rcases step_applyLoan_cases s c p t ca ct mv tok with hstep | ⟨s2, evs, hok, hstep⟩
    · rw [hstep]; exact ⟨hmap, hnext⟩
    · obtain ⟨_, hloans, hnext2, _, _, _⟩ := applyForLoan_ok_shape hok
      rw [hstep]
      constructor
      · rw [hloans, List.map_append, hmap, hnext]
        simp [List.range'_concat]
        omega
      · rw [hnext2, hloans, hnext]
        simp

/-- Running a transaction list one step at a time. -/
theorem run_cons (s : ContractState) (op : Op) (ops : List Op) :
    run s (op :: ops) = run (step s op) ops := rfl

/-- The freshly constructed contract is ledger-consistent. -/
theorem construct_ledgerConsistent (o : Address) :
    ledgerConsistent (construct o) := by
  constructor <;> rfl

/-- Ledger consistency holds in every state reachable by a transaction
sequence from a consistent state. -/
theorem run_ledgerConsistent {s : ContractState} (ops : List Op)
    (h : ledgerConsistent s) : ledgerConsistent (run s ops) := by
  induction ops generalizing s with
  | nil => exact h
  | cons op rest ih => rw [run_cons]; exact ih (step_ledgerConsistent op h)

/-- No transaction ever removes or edits an existing ledger entry: the
old ledger is a prefix of the new one. -/
theorem step_loans_extend (s : ContractState) (op : Op) :
    ∃ tail : List Loan, (step s op).loans = s.loans ++ tail := by
  cases op with
  | setScore c b v =>
    exact ⟨[], by simp [(step_setScore_frame s c b v).1]⟩
  | addCollateral c t =>
    exact ⟨[], by simp [(step_addCollateral_frame s c t).1]⟩
  | applyLoan c p t ca ct mv tok =>
    rcases step_applyLoan_cases s c p t ca ct mv tok with hstep | ⟨s2, evs, hok, hstep⟩
    · exact ⟨[], by simp [hstep]⟩
    · obtain ⟨_, hloans, _⟩ := applyForLoan_ok_shape hok
      exact ⟨_, by rw [hstep, hloans]⟩

/-- Whitelist membership survives any single transaction. -/
theorem step_isSupported {s : ContractState} (op : Op) {t : Address}
    (h : isSupported s t = true) : isSupported (step s op) t = true := by
  cases op with
  | setScore c b v =>
    by_cases h1 : c ≠ s.trustedOracle
    · simpa [step, exec, setRiskScore, h1] using h
    · by_cases h2 : v > 100 <;>
        simpa [step, exec, setRiskScore, isSupported, h1, h2] using h
  | addCollateral c u =>
    by_cases h1 : c ≠ s.trustedOracle
    · simpa [step, exec, addCollateralToken, h1] using h
    · simp [step, exec, addCollateralToken, isSupported, h1]
      simpa using contains_addToken s.supportedCollateral t u h
  | applyLoan c p t2 ca ct mv tok =>
    rcases step_applyLoan_cases s c p t2 ca ct mv tok with hstep | ⟨s2, evs, hok, hstep⟩
    · rwa [hstep]
    · obtain ⟨_, _, _, _, _, hsc⟩ := applyForLoan_ok_shape hok
      rw [hstep]
      simpa [isSupported, hsc] using h

/-- Whitelist membership survives any transaction sequence. -/
theorem run_isSupported {s : ContractState} (ops : List Op) {t : Address}
    (h : isSupported s t = true) : isSupported (run s ops) t = true := by
  induction ops generalizing s with
  | nil => exact h
  | cons op rest ih => rw [run_cons]; exact ih (step_isSupported op h)

/-! ## Claim theorems -/

/-- C1: for every caller whose stored risk score s satisfies
1 ≤ s ≤ 100, a successful applyForLoan records a loan whose interestRate
equals floor(100 / s) (Nat division); the particular cases score 25 ↦
rate 4, score 100 ↦ rate 1 and score 1 ↦ rate 100 are instances. -/
theorem C1_interest_rate_floor_div (s s2 : ContractState) (evs : List Event)
    (c p t ca ct mv : Nat) (tok : Bool)
    (h1 : 1 ≤ getScore s c) (h2 : getScore s c ≤ 100)
    (h : applyForLoan s c p t ca ct mv tok = .ok (s2, evs)) :
    ∃ l : Loan, s2.loans = s.loans ++ [l] ∧
      l.interestRate = 100 / getScore s c := by
  obtain ⟨_, hloans, _⟩ := applyForLoan_ok_shape h
  exact ⟨_, hloans, rfl⟩

/-- Witness for C1: a borrower scored 25 obtains rate 4 = floor(100/25). -/
theorem C1_interest_rate_floor_div_witness :
    ∃ l : Loan,
      (ContractState.mk [⟨1, 2, 10, 4, 12, 5, 0, false⟩] 1 [(2, 25)] [] 2).loans =
        (ContractState.mk [] 1 [(2, 25)] [] 1).loans ++ [l] ∧
      l.interestRate = 100 / getScore (ContractState.mk [] 1 [(2, 25)] [] 1) 2 :=
  C1_interest_rate_floor_div (ContractState.mk [] 1 [(2, 25)] [] 1)
    (ContractState.mk [⟨1, 2, 10, 4, 12, 5, 0, false⟩] 1 [(2, 25)] [] 2)
    [.LoanDisbursed 1 2 10 4 0 5] 2 10 12 5 0 5 true
    (by decide) (by decide) rfl

/-- C2: a borrower whose score was never written, or was written as 0,
is rejected with NotScored; the reverted transaction leaves the whole
state (in particular `loans` and `nextLoanId`) unchanged and, the guard
failing first, no collateral transfer is attempted. -/
theorem C2_not_scored_rejected (s : ContractState) (c p t ca ct mv : Nat)
    (tok : Bool)
    (h : s.borrowerRiskScore.lookup c = none ∨
         s.borrowerRiskScore.lookup c = some 0) :
    applyForLoan s c p t ca ct mv tok = .error .NotScored ∧
    step s (.applyLoan c p t ca ct mv tok) = s := by
  have h0 : getScore s c = 0 := by
    cases h with
    | inl h => simp [getScore, h]
    | inr h => simp [getScore, h]
  have happ : applyForLoan s c p t ca ct mv tok = .error .NotScored := by
    simp [applyForLoan, h0]
  exact ⟨happ, step_of_error (e := .NotScored) (by simp [exec, happ])⟩

/-- Witness for C2: a never-scored borrower of the fresh contract. -/
theorem C2_not_scored_rejected_witness :
    applyForLoan (construct 1) 2 10 12 5 0 5 true = .error .NotScored ∧
    step (construct 1) (.applyLoan 2 10 12 5 0 5 true) = construct 1 :=
  C2_not_scored_rejected (construct 1) 2 10 12 5 0 5 true (Or.inl rfl)

/-- C3: any caller other than the trusted oracle is rejected with
Unauthorized by both setRiskScore and addCollateralToken, for every
argument value — in particular even an out-of-range score, so the
authorization check precedes all other validation — and the reverted
transactions leave the state unchanged. -/
theorem C3_unauthorized_oracle_ops (s : ContractState) (c b v t : Nat)
    (h : c ≠ s.trustedOracle) :
    setRiskScore s c b v = .error .Unauthorized ∧
    addCollateralToken s c t = .error .Unauthorized ∧
    step s (.setScore c b v) = s ∧
    step s (.addCollateral c t) = s := by
  have h1 : setRiskScore s c b v = .error .Unauthorized := by
    simp [setRiskScore, h]
  have h2 : addCollateralToken s c t = .error .Unauthorized := by
    simp [addCollateralToken, h]
  exact ⟨h1, h2, step_of_error (e := .Unauthorized) (by simp [exec, h1]),
    step_of_error (e := .Unauthorized) (by simp [exec, h2])⟩

/-- Witness for C3: caller 2 is not the oracle 1; the score 200 is even
out of range, yet the failure is Unauthorized, not InvalidScore. -/
theorem C3_unauthorized_oracle_ops_witness :
    setRiskScore (construct 1) 2 3 200 = .error .Unauthorized ∧
    addCollateralToken (construct 1) 2 7 = .error .Unauthorized ∧
    step (construct 1) (.setScore 2 3 200) = construct 1 ∧
    step (construct 1) (.addCollateral 2 7) = construct 1 :=
  C3_unauthorized_oracle_ops (construct 1) 2 3 200 7 (by decide)

/-- C4: the score guard runs strictly before the rate computation, so
whenever applyForLoan reaches the division `100 / riskScore` — that is,
on every input on which it succeeds — the stored score is at least 1 and
the divisor is nonzero. -/
theorem C4_guard_precedes_division (s s2 : ContractState) (evs : List Event)
    (c p t ca ct mv : Nat) (tok : Bool)
    (h : applyForLoan s c p t ca ct mv tok = .ok (s2, evs)) :
    1 ≤ getScore s c :=
  (applyForLoan_ok_shape h).1

/-- Witness for C4: a successful application by a borrower scored 50. -/
theorem C4_guard_precedes_division_witness :
    1 ≤ getScore (ContractState.mk [] 1 [(2, 50)] [] 1) 2 :=
  C4_guard_precedes_division (ContractState.mk [] 1 [(2, 50)] [] 1)
    (ContractState.mk [⟨1, 2, 10, 2, 12, 5, 0, false⟩] 1 [(2, 50)] [] 2)
    [.LoanDisbursed 1 2 10 2 0 5] 2 10 12 5 0 5 true rfl

/-- C5: across every transaction sequence from a fresh contract the
ledger stays consistent — the recorded loanIds are exactly 1, 2, …, n
with nextLoanId one past the end, so ids are assigned consecutively with
no gaps or reuse — no transaction ever truncates or edits the existing
ledger (the old ledger is a prefix of the new one), and every successful
applyForLoan appends exactly one loan carrying the current nextLoanId
and advances the counter by one. -/
theorem C5_append_only_ledger (o : Address) (ops : List Op) :
    ledgerConsistent (run (construct o) ops) ∧
    (∀ op : Op, ∃ tail : List Loan,
      (step (run (construct o) ops) op).loans =
        (run (construct o) ops).loans ++ tail) ∧
    (∀ (c p t ca ct mv : Nat) (tok : Bool) (s2 : ContractState)
        (evs : List Event),
      applyForLoan (run (construct o) ops) c p t ca ct mv tok = .ok (s2, evs) →
      ∃ l : Loan, s2.loans = (run (construct o) ops).loans ++ [l] ∧
        l.loanId = (run (construct o) ops).nextLoanId ∧
        s2.nextLoanId = (run (construct o) ops).nextLoanId + 1) := by
  refine ⟨run_ledgerConsistent ops (construct_ledgerConsistent o),
    fun op => step_loans_extend _ op, ?_⟩
  intro c p t ca ct mv tok s2 evs h
  obtain ⟨_, hloans, hnext, _⟩ := applyForLoan_ok_shape h
  exact ⟨_, hloans, rfl, hnext⟩

/-- Witness for C5: after an oracle scoring and one successful
application, the ledger of the reached state is consistent. -/
theorem C5_append_only_ledger_witness :
    ledgerConsistent
      (run (construct 1) [.setScore 1 2 50, .applyLoan 2 10 12 5 0 5 true]) :=
  (C5_append_only_ledger 1 [.setScore 1 2 50, .applyLoan 2 10 12 5 0 5 true]).1

/-- C6: collateral routing for a scored caller — native collateral with
a mismatched native value fails with CollateralMismatch; token
collateral fails with UnsupportedCollateral when not whitelisted, with
UnexpectedNativeValue when native value is sent alongside, and with
TransferFailed when the pull-transfer fails; and every failing
applyForLoan reverts, leaving the state (hence `loans` and `nextLoanId`)
unchanged. -/
theorem C6_collateral_routing (s : ContractState) (c p t ca ct mv : Nat)
    (tok : Bool) (hsc : 1 ≤ getScore s c) :
    (ct = 0 → mv ≠ ca →
      applyForLoan s c p t ca ct mv tok = .error .CollateralMismatch) ∧
    (ct ≠ 0 → isSupported s ct = false →
      applyForLoan s c p t ca ct mv tok = .error .UnsupportedCollateral) ∧
    (ct ≠ 0 → isSupported s ct = true → mv ≠ 0 →
      applyForLoan s c p t ca ct mv tok = .error .UnexpectedNativeValue) ∧
    (ct ≠ 0 → isSupported s ct = true → mv = 0 → tok = false →
      applyForLoan s c p t ca ct mv tok = .error .TransferFailed) ∧
    (∀ e : Err, applyForLoan s c p t ca ct mv tok = .error e →
      step s (.applyLoan c p t ca ct mv tok) = s) := by
  have h0 : ¬ getScore s c = 0 := by omega
  refine ⟨?_, ?_, ?_, ?_, ?_⟩
  · intro hct hmv
    simp [applyForLoan, h0, hct, hmv]
  · intro hct hsup
    simp [applyForLoan, h0, hct, hsup]
  · intro hct hsup hmv
    simp [applyForLoan, h0, hct, hsup, hmv]
  · intro hct hsup hmv htok
    simp [applyForLoan, h0, hct, hsup, hmv, htok]
  · intro e he
    exact step_of_error (e := e) (by simp [exec, he])

/-- Witness for C6: a borrower scored 50 sending 3 native units against
a declared native collateral of 5 is rejected with CollateralMismatch. -/
theorem C6_collateral_routing_witness :
    applyForLoan (ContractState.mk [] 1 [(2, 50)] [] 1) 2 10 12 5 0 3 true =
      .error .CollateralMismatch :=
  (C6_collateral_routing (ContractState.mk [] 1 [(2, 50)] [] 1)
      2 10 12 5 0 3 true (by decide)).1 rfl (by decide)

/-- C7: called by the oracle, setRiskScore rejects every score above 100
with InvalidScore, reverting without touching the registry; every score
up to 100 overwrites the borrower's stored value (latest-write-wins),
leaves all other borrowers unchanged and emits ScoreUpdated; re-setting
the same value succeeds on the updated state, yields the same state and
re-emits the same event. -/
theorem C7_set_score_range_and_overwrite (s : ContractState) (c b v : Nat)
    (hc : c = s.trustedOracle) :
    (100 < v → setRiskScore s c b v = .error .InvalidScore ∧
      step s (.setScore c b v) = s) ∧
    (v ≤ 100 → ∃ s2 : ContractState,
      setRiskScore s c b v = .ok (s2, [.ScoreUpdated b v]) ∧
      getScore s2 b = v ∧
      (∀ a : Nat, a ≠ b → getScore s2 a = getScore s a) ∧
      setRiskScore s2 c b v = .ok (s2, [.ScoreUpdated b v])) := by
  constructor
  · intro hv
    have h1 : setRiskScore s c b v = .error .InvalidScore := by
      simp [setRiskScore, hc, hv]
    exact ⟨h1, step_of_error (e := .InvalidScore) (by simp [exec, h1])⟩
  · intro hv
    have hv2 : ¬ v > 100 := by omega
    refine ⟨{ s with borrowerRiskScore := writeScore s.borrowerRiskScore b v },
      ?_, ?_, ?_, ?_⟩
    · simp [setRiskScore, hc, hv2]
    · simp [getScore, lookup_writeScore_self]
    · intro a ha
      simp [getScore, lookup_writeScore_ne s.borrowerRiskScore a b v ha]
    · simp [setRiskScore, hc, hv2, writeScore_idem]

/-- Witness for C7: the oracle of a fresh contract setting score 200 is
rejected with InvalidScore and the state is unchanged. -/
theorem C7_set_score_range_and_overwrite_witness :
    setRiskScore (construct 1) 1 2 200 = .error .InvalidScore ∧
    step (construct 1) (.setScore 1 2 200) = construct 1 :=
  (C7_set_score_range_and_overwrite (construct 1) 1 2 200 rfl).1 (by decide)

/-- Inserting a token whitelists it. -/
theorem contains_addToken_self (l : List Address) (t : Address) :
    (addToken l t).contains t = true := by
  unfold addToken
  split
  · next h => exact h
  · simp [List.contains_cons]

/-- C8 counterexample: the contract exposes scores only through the
public mapping getter, which returns a bare number with default 0 — it
has no presence flag. After the oracle of a fresh contract explicitly
writes score 0 for borrower 2, the registry records the write, borrower
3 was never written, yet both read identically as 0: an explicit 0 is
not observably distinct from absence, contradicting the claim. -/
theorem C8_getter_counterexample :
    setRiskScore (construct 1) 1 2 0 =
      .ok (ContractState.mk [] 1 [(2, 0)] [] 1, [.ScoreUpdated 2 0]) ∧
    (ContractState.mk [] 1 [(2, 0)] [] 1).borrowerRiskScore.lookup 2 = some 0 ∧
    (ContractState.mk [] 1 [(2, 0)] [] 1).borrowerRiskScore.lookup 3 = none ∧
    getScore (ContractState.mk [] 1 [(2, 0)] [] 1) 2 =
      getScore (ContractState.mk [] 1 [(2, 0)] [] 1) 3 :=
  ⟨rfl, rfl, rfl, rfl⟩

/-- C8 as amended: reading a borrower's score is a pure, total read of
the public mapping getter returning a single number — after a successful
write of v for b it returns v for b and is unchanged for every other
borrower; a never-written borrower reads as 0; consequently an
explicitly written 0 is observationally identical to absence. -/
theorem C8_amended_getter_total (s s2 : ContractState) (evs : List Event)
    (c b v : Nat) (h : setRiskScore s c b v = .ok (s2, evs)) :
    getScore s2 b = v ∧
    (∀ a : Nat, a ≠ b → getScore s2 a = getScore s a) ∧
    (∀ a : Nat, s.borrowerRiskScore.lookup a = none → getScore s a = 0) ∧
    (v = 0 → ∀ a : Nat, s2.borrowerRiskScore.lookup a = none →
      getScore s2 b = getScore s2 a) := by
  have hs2 : s2 = { s with borrowerRiskScore := writeScore s.borrowerRiskScore b v } := by
    simp only [setRiskScore] at h
    split at h
    · simp at h
    · split at h
      · simp at h
      · simp only [Except.ok.injEq, Prod.mk.injEq] at h
        exact h.1.symm
  subst hs2
  refine ⟨by simp [getScore, lookup_writeScore_self], ?_, ?_, ?_⟩
  · intro a ha
    simp [getScore, lookup_writeScore_ne s.borrowerRiskScore a b v ha]
  · intro a ha
    simp [getScore, ha]
  · intro hv a ha
    subst hv
    have ha2 : List.lookup a (writeScore s.borrowerRiskScore b 0) = none := ha
    simp [getScore, lookup_writeScore_self, ha2]

/-- Witness for the amended C8: the oracle writes 0 for borrower 2 on a
fresh contract. -/
theorem C8_amended_getter_total_witness :
    getScore (ContractState.mk [] 1 [(2, 0)] [] 1) 2 = 0 ∧
    (∀ a : Nat, a ≠ 2 →
      getScore (ContractState.mk [] 1 [(2, 0)] [] 1) a = getScore (construct 1) a) ∧
    (∀ a : Nat, (construct 1).borrowerRiskScore.lookup a = none →
      getScore (construct 1) a = 0) ∧
    ((0 : Nat) = 0 → ∀ a : Nat,
      (ContractState.mk [] 1 [(2, 0)] [] 1).borrowerRiskScore.lookup a = none →
      getScore (ContractState.mk [] 1 [(2, 0)] [] 1) 2 =
        getScore (ContractState.mk [] 1 [(2, 0)] [] 1) a) :=
  C8_amended_getter_total (construct 1) (ContractState.mk [] 1 [(2, 0)] [] 1)
    [.ScoreUpdated 2 0] 1 2 0 rfl

/-- C9: the whitelist grows monotonically — a supported token stays
supported across any single transaction and any transaction sequence
(the contract has no removal operation), and a successful
addCollateralToken leaves its token supported in the produced state. -/
theorem C9_whitelist_monotone (s : ContractState) (c t : Address) (op : Op)
    (ops : List Op) (h : isSupported s t = true) :
    isSupported (step s op) t = true ∧
    isSupported (run s ops) t = true ∧
    (∀ (s2 : ContractState) (evs : List Event),
      addCollateralToken s c t = .ok (s2, evs) → isSupported s2 t = true) := by
  refine ⟨step_isSupported op h, run_isSupported ops h, ?_⟩
  intro s2 evs hok
  simp only [addCollateralToken] at hok
  split at hok
  · simp at hok
  · simp only [Except.ok.injEq, Prod.mk.injEq] at hok
    rw [← hok.1]
    exact contains_addToken_self s.supportedCollateral t

/-- Witness for C9: token 7, already whitelisted, survives a foreign
add and a scoring transaction. -/
theorem C9_whitelist_monotone_witness :
    isSupported (step (ContractState.mk [] 1 [] [7] 1) (.addCollateral 1 9)) 7 = true ∧
    isSupported (run (ContractState.mk [] 1 [] [7] 1) [.setScore 1 2 50]) 7 = true ∧
    (∀ (s2 : ContractState) (evs : List Event),
      addCollateralToken (ContractState.mk [] 1 [] [7] 1) 1 7 = .ok (s2, evs) →
      isSupported s2 7 = true) :=
  C9_whitelist_monotone (ContractState.mk [] 1 [] [7] 1) 1 7
    (.addCollateral 1 9) [.setScore 1 2 50] rfl

/-- C10: applyForLoan validates no positivity of its numeric arguments:
a scored caller applying with principal 0, tenure 0, collateral amount 0,
native kind and zero native value succeeds, appending a loan with all
three fields 0 and advancing the counter. -/
theorem C10_zero_amounts_accepted (s : ContractState) (c : Nat) (tok : Bool)
    (h : 1 ≤ getScore s c) :
    ∃ s2 : ContractState,
      applyForLoan s c 0 0 0 0 0 tok =
        .ok (s2, [.LoanDisbursed s.nextLoanId c 0 (100 / getScore s c) 0 0]) ∧
      s2.loans = s.loans ++
        [⟨s.nextLoanId, c, 0, 100 / getScore s c, 0, 0, 0, false⟩] ∧
      s2.nextLoanId = s.nextLoanId + 1 := by
  have h0 : ¬ getScore s c = 0 := by omega
  refine ⟨{ s with
      loans := s.loans ++ [⟨s.nextLoanId, c, 0, 100 / getScore s c, 0, 0, 0, false⟩]
      nextLoanId := s.nextLoanId + 1 }, ?_, by simp, by simp⟩
  simp [applyForLoan, h0, recordLoan]

/-- Witness for C10: a borrower scored 1 opening an all-zero loan. -/
theorem C10_zero_amounts_accepted_witness :
    ∃ s2 : ContractState,
      applyForLoan (ContractState.mk [] 1 [(2, 1)] [] 1) 2 0 0 0 0 0 true =
        .ok (s2, [.LoanDisbursed 1 2 0 100 0 0]) ∧
      s2.loans = [] ++ [⟨1, 2, 0, 100, 0, 0, 0, false⟩] ∧
      s2.nextLoanId = 1 + 1 :=
  C10_zero_amounts_accepted (ContractState.mk [] 1 [(2, 1)] [] 1) 2 true
    (by decide)
